/-
Verification development for the blockhead repository.

The program is a small mock blockchain node (src/main.rs) built on a few
value types: a 32-byte Address (src/address.rs), a 32-byte content Hash and
an incremental HashBuilder wrapping Blake2s-256 (src/hash.rs), a Transaction
with a block-scoped hash derivation (src/transaction.rs), and a Block record
(src/block.rs).  The store type Blockhead holds three in-memory maps
(blocks, transactions, balances) plus a sqlite connection whose `block`
table is created empty and never inserted into by any code path.

Shallow embedding choices:
  - u8 / u64 machine integers are Nat, with explicit `% 2 ^ w` where the
    source wraps (Blake2s word arithmetic, `to_be_bytes`);
  - `HashMap<K, V>` is an association list `List (K × V)`; `values()`
    iteration is list order (Rust leaves the iteration order unspecified);
  - methods taking `&self` are pure functions of the store value; a
    state-passing wrapper `runQuery` makes the (absent) state change
    explicit for the frame-property claims;
  - a Rust panic (`Option::unwrap` on `None`, sqlite `Row::read` on a
    missing column) is the `none` case of an `Option` result;
  - Blake2s-256, the external digest behind HashBuilder, is implemented in
    full (RFC 7693, 32-bit flavour) so hash values are concrete.
-/
import Mathlib

namespace Blockhead32

/-- Truncate to a 32-bit word, as Rust `u32` wrapping arithmetic does. -/
def w32 (x : Nat) : Nat := x % 4294967296

/-- 32-bit wrapping addition. -/
def add32 (a b : Nat) : Nat := (a + b) % 4294967296

/-- Bitwise xor; on inputs below 2^32 the result stays below 2^32. -/
def xor32 (a b : Nat) : Nat := Nat.xor a b

/-- Rotate a 32-bit word right by `n` bits. -/
def rotr32 (x n : Nat) : Nat := Nat.lor (x >>> n) (w32 (x <<< (32 - n)))

/-- Word `i` of a word list, defaulting to 0 (lists here have fixed length). -/
def getW (l : List Nat) (i : Nat) : Nat := l.getD i 0

/-- Replace word `i` of a word list. -/
def setW (l : List Nat) (i : Nat) (x : Nat) : List Nat := l.set i x

/-- The Blake2s initialisation vector (RFC 7693 section 2.6). -/
def blakeIV : List Nat :=
  [0x6A09E667, 0xBB67AE85, 0x3C6EF372, 0xA54FF53A,
   0x510E527F, 0x9B05688C, 0x1F83D9AB, 0x5BE0CD19]

/-- The Blake2 message schedule sigma (RFC 7693 section 2.7). -/
def blakeSigma : List (List Nat) :=
  [[0, 1, 2, 3, 4, 5, 6, 7, 8, 9, 10, 11, 12, 13, 14, 15],
   [14, 10, 4, 8, 9, 15, 13, 6, 1, 12, 0, 2, 11, 7, 5, 3],
   [11, 8, 12, 0, 5, 2, 15, 13, 10, 14, 3, 6, 7, 1, 9, 4],
   [7, 9, 3, 1, 13, 12, 11, 14, 2, 6, 5, 10, 4, 0, 15, 8],
   [9, 0, 5, 7, 2, 4, 10, 15, 14, 1, 11, 12, 6, 8, 3, 13],
   [2, 12, 6, 10, 0, 11, 8, 3, 4, 13, 7, 5, 15, 14, 1, 9],
   [12, 5, 1, 15, 14, 13, 4, 10, 0, 7, 6, 3, 9, 2, 8, 11],
   [13, 11, 7, 14, 12, 1, 3, 9, 5, 0, 15, 4, 8, 6, 2, 10],
   [6, 15, 14, 9, 11, 3, 0, 8, 12, 2, 13, 7, 1, 4, 10, 5],
   [10, 2, 8, 4, 7, 6, 1, 5, 15, 11, 9, 14, 3, 12, 13, 0]]

/-- The Blake2 mixing function G on working-vector indices a b c d with
message words x y (RFC 7693 section 3.1, 32-bit rotation amounts). -/
def gMix (v : List Nat) (a b c d x y : Nat) : List Nat :=
  let va1 := add32 (add32 (getW v a) (getW v b)) x
  let vd1 := rotr32 (xor32 (getW v d) va1) 16
  let vc1 := add32 (getW v c) vd1
  let vb1 := rotr32 (xor32 (getW v b) vc1) 12
  let va2 := add32 (add32 va1 vb1) y
  let vd2 := rotr32 (xor32 vd1 va2) 8
  let vc2 := add32 vc1 vd2
  let vb2 := rotr32 (xor32 vb1 vc2) 7
  setW (setW (setW (setW v a va2) b vb2) c vc2) d vd2

/-- One Blake2s round: eight G applications in the column/diagonal pattern,
with message words selected through a sigma row `s`. -/
def blakeRound (m : List Nat) (v : List Nat) (s : List Nat) : List Nat :=
  let v1 := gMix v 0 4 8 12 (getW m (getW s 0)) (getW m (getW s 1))
  let v2 := gMix v1 1 5 9 13 (getW m (getW s 2)) (getW m (getW s 3))
  let v3 := gMix v2 2 6 10 14 (getW m (getW s 4)) (getW m (getW s 5))
  let v4 := gMix v3 3 7 11 15 (getW m (getW s 6)) (getW m (getW s 7))
  let v5 := gMix v4 0 5 10 15 (getW m (getW s 8)) (getW m (getW s 9))
  let v6 := gMix v5 1 6 11 12 (getW m (getW s 10)) (getW m (getW s 11))
  let v7 := gMix v6 2 7 8 13 (getW m (getW s 12)) (getW m (getW s 13))
  gMix v7 3 4 9 14 (getW m (getW s 14)) (getW m (getW s 15))

/-- The Blake2s compression function F: state words `h`, one 16-word message
block `m`, byte counter `t`, and the final-block flag (RFC 7693 section 3.2). -/
def blakeCompress (h : List Nat) (m : List Nat) (t : Nat) (last : Bool) : List Nat :=
  let v0 := h ++ blakeIV
  let v1 := setW v0 12 (xor32 (getW v0 12) (w32 t))
  let v2 := setW v1 13 (xor32 (getW v1 13) (w32 (t >>> 32)))
  let v3 := if last then setW v2 14 (xor32 (getW v2 14) 0xFFFFFFFF) else v2
  let vf := blakeSigma.foldl (fun v s => blakeRound m v s) v3
  (List.range 8).map (fun i => xor32 (getW h i) (xor32 (getW vf i) (getW vf (i + 8))))

/-- Little-endian 32-bit words from a byte list (partial trailing words are
zero-padded high; the callers always pass multiples of 4 bytes). -/
def leWords : List Nat → List Nat
  | b0 :: b1 :: b2 :: b3 :: rest =>
      (b0 + b1 * 256 + b2 * 65536 + b3 * 16777216) :: leWords rest
  | [b0, b1, b2] => [b0 + b1 * 256 + b2 * 65536]
  | [b0, b1] => [b0 + b1 * 256]
  | [b0] => [b0]
  | [] => []

/-- Little-endian byte serialisation of one 32-bit word. -/
def wordLEBytes (x : Nat) : List Nat :=
  [x % 256, (x >>> 8) % 256, (x >>> 16) % 256, (x >>> 24) % 256]

/-- Hashing loop over 64-byte blocks; `fuel` bounds recursion (callers pass
the message length plus one, which always suffices), and `done` counts bytes
already compressed. -/
def blakeLoop : Nat → List Nat → List Nat → Nat → List Nat
  | 0, h, _, _ => h
  | fuel + 1, h, msg, done =>
      if msg.length ≤ 64 then
        blakeCompress h (leWords (msg ++ List.replicate (64 - msg.length) 0))
          (done + msg.length) true
      else
        blakeLoop fuel
          (blakeCompress h (leWords (msg.take 64)) (done + 64) false)
          (msg.drop 64) (done + 64)

/-- Blake2s-256 of a byte list: 32-byte unkeyed digest, the function the
`blake2` crate's `Blake2s256` computes for `HashBuilder` (src/hash.rs). -/
def blake2s256 (msg : List Nat) : List Nat :=
  let h0 := setW blakeIV 0 (xor32 (getW blakeIV 0) 0x01010020)
  ((blakeLoop (msg.length + 1) h0 msg 0).map wordLEBytes).flatten

end Blockhead32

namespace Src

open Blockhead32

/-- A 32-byte content hash, `struct Hash(pub [u8; 32])` in src/hash.rs.
The source's separate `BlockHash` / `TransactionHash` names denote the same
32-byte digest shape; main.rs keys both maps by `Hash`. -/
structure Hash where
  bytes : List Nat
deriving DecidableEq, Repr

/-- A 32-byte account identifier, `struct Address(pub [u8; 32])` in
src/address.rs. -/
structure Address where
  bytes : List Nat
deriving DecidableEq, Repr

/-- Hex character for a nibble, as `hex::encode` produces (lowercase):
digits 0-9 map to codepoints from 48, digits 10-15 to codepoints from 97. -/
def hexDigit (n : Nat) : Char :=
  if n < 10 then Char.ofNat (48 + n) else Char.ofNat (87 + n)

/-- Lowercase hex encoding of a byte list (`hex::encode`). -/
def hexEncode (bytes : List Nat) : String :=
  String.mk (bytes.flatMap (fun b => [hexDigit (b / 16), hexDigit (b % 16)]))

/-- Display form of a Hash, src/hash.rs `impl Display for Hash`:
`0x` followed by lowercase hex. -/
def Hash.toDisplay (h : Hash) : String := "0x" ++ hexEncode h.bytes

/-- The incremental digest accumulator of src/hash.rs: wraps a Blake2s256
hasher; embedded as the list of bytes absorbed so far. -/
structure HashBuilder where
  acc : List Nat

/-- HashBuilder::new — a fresh hasher with nothing absorbed. -/
def HashBuilder.new : HashBuilder := ⟨[]⟩

/-- HashBuilder::update — absorbs more bytes after those already absorbed. -/
def HashBuilder.update (b : HashBuilder) (data : List Nat) : HashBuilder :=
  ⟨b.acc ++ data⟩

/-- HashBuilder::finalize — the Blake2s-256 digest of everything absorbed. -/
def HashBuilder.finalize (b : HashBuilder) : Hash :=
  ⟨blake2s256 b.acc⟩

/-- Hash::from(&str) in src/hash.rs: hash the string's UTF-8 bytes. -/
def Hash.fromString (s : String) : Hash :=
  (HashBuilder.new.update (s.toUTF8.toList.map (fun b => b.toNat))).finalize

/-- A value-transfer record, src/transaction.rs `struct Transaction`. -/
structure Transaction where
  from_address : Address
  to_address : Address
  value : Nat
  data : List Nat
deriving DecidableEq, Repr

/-- Big-endian 8-byte encoding of a u64, Rust `u64::to_be_bytes`. -/
def beBytes8 (v : Nat) : List Nat :=
  [(v >>> 56) % 256, (v >>> 48) % 256, (v >>> 40) % 256, (v >>> 32) % 256,
   (v >>> 24) % 256, (v >>> 16) % 256, (v >>> 8) % 256, v % 256]

/-- Transaction::compute_hash (src/transaction.rs lines 14-22): a fresh
HashBuilder absorbing, in order, the parent block hash bytes, the sender
address bytes, the recipient address bytes, the big-endian value bytes, and
the raw data bytes, then finalized. -/
def Transaction.compute_hash (t : Transaction) (hash : Hash) : Hash :=
  (((((HashBuilder.new.update hash.bytes).update t.from_address.bytes).update
      t.to_address.bytes).update (beBytes8 t.value)).update t.data).finalize

/-- A chain block, src/block.rs `struct Block` (hash, parent hash, number,
timestamp, ordered transaction list). -/
structure Block where
  hash : Hash
  parent_hash : Hash
  number : Nat
  timestamp : Nat
  transactions : List (Hash × Transaction)
deriving DecidableEq, Repr

/-- A row of the sqlite `block` table that Blockhead::new creates
(columns hash, parent_hash, number, timestamp_nanos).  No code path ever
inserts into this table. -/
structure BlockRow where
  hash : String
  parent_hash : String
  number : Int
  timestamp_nanos : Int
deriving DecidableEq, Repr

/-- The store, `struct Blockhead` in src/main.rs: the sqlite `block` table
contents (standing for the connection) and the three in-memory HashMaps,
embedded as association lists. -/
structure Blockhead where
  blockTable : List BlockRow
  blocks : List (Hash × Block)
  transactions : List (Hash × Transaction)
  balances : List (Address × Nat)
deriving DecidableEq, Repr

/-- Association-list lookup, the embedding of `HashMap::get`. -/
def lookupAssoc {K V : Type} [DecidableEq K] : List (K × V) → K → Option V
  | [], _ => none
  | (k, v) :: rest, key => if k = key then some v else lookupAssoc rest key

/-- Blockhead::new (src/main.rs lines 79-104): opens a connection, creates
the empty `block` and `transactions` tables, and starts with all three maps
empty (`Default::default()`). -/
def Blockhead.new : Blockhead := ⟨[], [], [], []⟩

/-- Blockhead::get_block_by_hash (src/main.rs lines 110-125): runs
`SELECT * FROM block WHERE hash = ?`, and for each returned row reads the
nonexistent columns `name` and `age` — which panics; with no matching row it
returns `Ok` of the map lookup.  The outer `Option` is `none` exactly when a
row matches and the column read panics. -/
def Blockhead.get_block_by_hash (st : Blockhead) (hash : Hash) : Option (Option Block) :=
  if (st.blockTable.filter (fun r => r.hash = hash.toDisplay)).isEmpty then
    some (lookupAssoc st.blocks hash)
  else
    none

/-- Blockhead::get_block_by_number (src/main.rs lines 127-132): the first
stored block (in map iteration order) whose number matches. -/
def Blockhead.get_block_by_number (st : Blockhead) (number : Nat) : Option Block :=
  (st.blocks.map Prod.snd).find? (fun b => b.number == number)

/-- Blockhead::get_latest_block (src/main.rs lines 134-140):
`max_by_key(number)` over stored blocks — on ties Rust keeps the later
element — followed by `.unwrap()`, whose panic on an empty store is the
`none` case here. -/
def Blockhead.get_latest_block (st : Blockhead) : Option Block :=
  (st.blocks.map Prod.snd).foldl
    (fun acc b =>
      match acc with
      | none => some b
      | some m => if m.number ≤ b.number then some b else some m)
    none

/-- Blockhead::get_transaction (src/main.rs lines 142-144): map lookup. -/
def Blockhead.get_transaction (st : Blockhead) (hash : Hash) : Option Transaction :=
  lookupAssoc st.transactions hash

/-- Blockhead::send_transaction (src/main.rs lines 151-153): ignores its
argument and returns `Hash([0u8; 32])`; the receiver is `&self`, so the
store is returned unchanged. -/
def Blockhead.send_transaction (st : Blockhead) (_transaction : Transaction) :
    Hash × Blockhead :=
  (⟨List.replicate 32 0⟩, st)

/-- Blockhead::get_balance (src/main.rs lines 155-157):
`*self.balances.get(&address).unwrap_or(&0)`. -/
def Blockhead.get_balance (st : Blockhead) (address : Address) : Nat :=
  (lookupAssoc st.balances address).getD 0

/-- Blockhead::get_nonce (src/main.rs lines 159-161): constantly 0. -/
def Blockhead.get_nonce (_st : Blockhead) (_address : Address) : Nat := 0

/-- Blockhead::chain_id (src/main.rs lines 171-173): constantly 1. -/
def Blockhead.chain_id (_st : Blockhead) : Nat := 1

/-- Blockhead::syncing (src/main.rs lines 175-177): constantly false. -/
def Blockhead.syncing (_st : Blockhead) : Bool := false

/-- Blockhead::gas_price (src/main.rs lines 179-181): 20_000_000_000. -/
def Blockhead.gas_price (_st : Blockhead) : Nat := 20000000000

/-- Blockhead::estimate_gas (src/main.rs lines 167-169): constantly 21000. -/
def Blockhead.estimate_gas (_st : Blockhead) (_to : Address) (_data : List Nat) : Nat :=
  21000

/-- The read operations of the Blockchain trait, as one datatype so that
frame properties quantify over them. -/
inductive Query where
  | byHash (hash : Hash)
  | byNumber (number : Nat)
  | latest
  | tx (hash : Hash)
  | balance (address : Address)
  | nonce (address : Address)
deriving DecidableEq, Repr

/-- The result value of a query. -/
inductive QueryResult where
  | blockOrPanic (r : Option (Option Block))
  | block (r : Option Block)
  | tx (r : Option Transaction)
  | amount (r : Nat)
deriving DecidableEq, Repr

/-- State-passing semantics of one query call: the result together with the
store the caller holds afterwards (every trait method takes `&self`). -/
def runQuery (q : Query) (st : Blockhead) : QueryResult × Blockhead :=
  match q with
  | .byHash h => (.blockOrPanic (st.get_block_by_hash h), st)
  | .byNumber n => (.block (st.get_block_by_number n), st)
  | .latest => (.block st.get_latest_block, st)
  | .tx h => (.tx (st.get_transaction h), st)
  | .balance a => (.amount (st.get_balance a), st)
  | .nonce a => (.amount (st.get_nonce a), st)

end Src

open Blockhead32

/-- The all-zero 32-byte hash, `Hash([0u8; 32])`. -/
def zeroHash : Src.Hash := ⟨List.replicate 32 0⟩

/-- The all-zero address from the repository's own tests. -/
def addrZero : Src.Address := ⟨List.replicate 32 0⟩

/-- The all-one address from the repository's own tests. -/
def addrOne : Src.Address := ⟨List.replicate 32 1⟩

/-- The transaction submitted in the repository test
`test_get_inserted_block_by_hash`. -/
def txSample : Src.Transaction := ⟨addrZero, addrOne, 100, [1, 2, 3]⟩

/-- A second, distinct transaction. -/
def txOther : Src.Transaction := ⟨addrOne, addrZero, 7, []⟩

/-- Fixture hash for the genesis block of the three-block chain. -/
def hashA : Src.Hash := ⟨List.replicate 32 10⟩

/-- Fixture hash for the second block of the three-block chain. -/
def hashB : Src.Hash := ⟨List.replicate 32 11⟩

/-- Fixture hash for the third block of the three-block chain. -/
def hashC : Src.Hash := ⟨List.replicate 32 12⟩

/-- Genesis fixture block, number 0. -/
def blockA : Src.Block := ⟨hashA, zeroHash, 0, 0, []⟩

/-- Second fixture block, number 1. -/
def blockB : Src.Block := ⟨hashB, hashA, 1, 1, []⟩

/-- Third fixture block, number 2. -/
def blockC : Src.Block := ⟨hashC, hashB, 2, 2, []⟩

/-- A store holding a three-block chain (numbers 0, 1, 2). -/
def chain3 : Src.Blockhead := ⟨[], [(hashA, blockA), (hashB, blockB), (hashC, blockC)], [], []⟩

/-- If no element of the list has block number `n`, find? misses. -/
theorem find_none_of_no_match (l : List Src.Block) (n : Nat)
    (h : ∀ b ∈ l, b.number ≠ n) : l.find? (fun b => b.number == n) = none := by
  induction l with
  | nil => rfl
  | cons a rest ih =>
    have ha : (a.number == n) = false := by
      simpa using h a (by simp)
    simp only [List.find?, ha]
    exact ih (fun x hx => h x (by simp [hx]))

/-- If `b` is in the list with block number `n` and is the only element of
number `n`, find? returns exactly `b`. -/
theorem find_unique_match (l : List Src.Block) (n : Nat) (b : Src.Block)
    (hmem : b ∈ l) (hnum : b.number = n)
    (huniq : ∀ b' ∈ l, b'.number = n → b' = b) :
    l.find? (fun x => x.number == n) = some b := by
  induction l with
  | nil => cases hmem
  | cons a rest ih =>
    by_cases ha : a.number = n
    · have hab : a = b := huniq a (by simp) ha
      simp only [List.find?, show (a.number == n) = true by simpa using ha]
      exact congrArg some hab
    · have ha' : (a.number == n) = false := by simpa using ha
      simp only [List.find?, ha']
      have hbrest : b ∈ rest := by
        rcases List.mem_cons.mp hmem with hba | hr
        · exact absurd (hba ▸ hnum) ha
        · exact hr
      exact ih hbrest (fun x hx hxn => huniq x (by simp [hx]) hxn)

set_option maxRecDepth 10000

/-- C1 (counterexample): on a fresh store the sender of the repository's own
test transaction has balance 0 < value 100, so balance validation fails;
yet send_transaction returns normally with the constant all-zero hash and an
unchanged store, the returned hash resolves to no stored transaction, and a
different transaction gets the very same return value — so the return is not
"the hash of the resulting transaction" and no failure is ever reported. -/
theorem claim_C1_counterexample :
    Src.Blockhead.new.get_balance txSample.from_address < txSample.value ∧
    Src.Blockhead.new.send_transaction txSample = (zeroHash, Src.Blockhead.new) ∧
    (Src.Blockhead.new.send_transaction txSample).2.get_transaction
      (Src.Blockhead.new.send_transaction txSample).1 = none ∧
    (Src.Blockhead.new.send_transaction txSample).1 =
      (Src.Blockhead.new.send_transaction txOther).1 ∧
    txSample.compute_hash zeroHash ≠ (Src.Blockhead.new.send_transaction txSample).1 := by
  refine ⟨by decide, rfl, rfl, rfl, by decide⟩

/-- C1 (amended): send_transaction ignores its argument: for every store
state and every transaction it returns the constant all-zero hash
`Hash([0u8; 32])` and leaves the store unchanged — the transaction is
silently dropped (never stored, never validated) and no failure is ever
reported. -/
theorem claim_C1_amended_send_transaction_constant
    (st : Src.Blockhead) (t : Src.Transaction) :
    st.send_transaction t = (⟨List.replicate 32 0⟩, st) ∧
    ∀ h : Src.Hash, (st.send_transaction t).2.get_transaction h = st.get_transaction h :=
  ⟨rfl, fun _ => rfl⟩

/-- C2 (code evaluated at the failing input): on a freshly created store with
no committed block, get_latest_block reaches the `unwrap()` of `None` — the
`none` case here, a panic/abort in the source — instead of failing with a
recoverable EmptyChain error as the specification requires. -/
theorem claim_C2_get_latest_block_empty_panics :
    Src.Blockhead.new.get_latest_block = none := rfl

/-- C3: compute_hash equals the Blake2s-256 digest of the concatenation, in
this fixed order, of the parent block hash bytes, the from-address bytes,
the to-address bytes, the 8-byte big-endian value encoding, and the raw data
bytes — i.e. the incremental HashBuilder absorption agrees with feeding the
whole encoding to a fresh builder at once. -/
theorem claim_C3_compute_hash_field_order (t : Src.Transaction) (h : Src.Hash) :
    t.compute_hash h =
      (Src.HashBuilder.new.update
        (h.bytes ++ t.from_address.bytes ++ t.to_address.bytes ++
          Src.beBytes8 t.value ++ t.data)).finalize ∧
    t.compute_hash h =
      ⟨blake2s256 (h.bytes ++ t.from_address.bytes ++ t.to_address.bytes ++
          Src.beBytes8 t.value ++ t.data)⟩ :=
  ⟨rfl, rfl⟩

/-- C4: transaction hashing is deterministic — two transactions with
identical (from, to, value, data) fields hashed against equal parent block
hashes yield equal TransactionHash values. -/
theorem claim_C4_compute_hash_deterministic (t1 t2 : Src.Transaction)
    (h1 h2 : Src.Hash) (hf : t1.from_address = t2.from_address)
    (ht : t1.to_address = t2.to_address) (hv : t1.value = t2.value)
    (hd : t1.data = t2.data) (hh : h1 = h2) :
    t1.compute_hash h1 = t2.compute_hash h2 := by
  simp only [Src.Transaction.compute_hash, hf, ht, hv, hd, hh]

/-- Witness for C4 at the repository's test transaction. -/
theorem claim_C4_witness :
    txSample.compute_hash zeroHash =
      Src.Transaction.compute_hash ⟨addrZero, addrOne, 100, [1, 2, 3]⟩ zeroHash :=
  claim_C4_compute_hash_deterministic txSample ⟨addrZero, addrOne, 100, [1, 2, 3]⟩
    zeroHash zeroHash rfl rfl rfl rfl rfl

/-- C5: get_balance reports absence as the value 0, not as an error — an
address missing from the balances index yields 0, and on a store whose
balance index is empty (no applied transactions) every address yields 0. -/
theorem claim_C5_get_balance_absent_zero (st : Src.Blockhead) (a : Src.Address) :
    (Src.lookupAssoc st.balances a = none → st.get_balance a = 0) ∧
    (st.balances = [] → st.get_balance a = 0) := by
  constructor
  · intro h
    simp [Src.Blockhead.get_balance, h]
  · intro h
    simp [Src.Blockhead.get_balance, h, Src.lookupAssoc]

/-- Witness for C5 on the fresh store at the zero address. -/
theorem claim_C5_witness :
    Src.lookupAssoc Src.Blockhead.new.balances addrZero = none ∧
    Src.Blockhead.new.get_balance addrZero = 0 :=
  ⟨by decide, (claim_C5_get_balance_absent_zero Src.Blockhead.new addrZero).1 (by decide)⟩

/-- C6: get_block_by_number returns the absence value `none` when no stored
block carries the requested number, and returns exactly the stored block
carrying that number whenever it is the unique such block (block numbers are
unique on well-formed chains; map iteration order is otherwise unspecified). -/
theorem claim_C6_get_block_by_number_lookup (st : Src.Blockhead) (n : Nat) :
    ((∀ b ∈ st.blocks.map Prod.snd, b.number ≠ n) →
      st.get_block_by_number n = none) ∧
    (∀ b ∈ st.blocks.map Prod.snd, b.number = n →
      (∀ b' ∈ st.blocks.map Prod.snd, b'.number = n → b' = b) →
      st.get_block_by_number n = some b) := by
  constructor
  · intro h
    exact find_none_of_no_match _ n h
  · intro b hmem hnum huniq
    exact find_unique_match _ n b hmem hnum huniq

/-- Witness for C6: on the three-block chain, number 999 is absent and
number 2 resolves to the third block. -/
theorem claim_C6_witness :
    chain3.get_block_by_number 999 = none ∧
    chain3.get_block_by_number 2 = some blockC :=
  ⟨(claim_C6_get_block_by_number_lookup chain3 999).1 (by decide),
   (claim_C6_get_block_by_number_lookup chain3 2).2 blockC (by decide) (by decide)
     (by decide)⟩

/-- C7: every read operation of the query surface leaves the store
unchanged — after any query call the blocks, transactions, and balances
collections equal their values before it. -/
theorem claim_C7_queries_pure (q : Src.Query) (st : Src.Blockhead) :
    (Src.runQuery q st).2.blocks = st.blocks ∧
    (Src.runQuery q st).2.transactions = st.transactions ∧
    (Src.runQuery q st).2.balances = st.balances := by
  cases q <;> exact ⟨rfl, rfl, rfl⟩

/-- C8: two successive get_block_by_hash calls with the same hash and no
intervening append return equal results. -/
theorem claim_C8_get_block_by_hash_idempotent (st : Src.Blockhead) (h : Src.Hash) :
    (Src.runQuery (Src.Query.byHash h) ((Src.runQuery (Src.Query.byHash h) st).2)).1 =
      (Src.runQuery (Src.Query.byHash h) st).1 := rfl

/-- C9: get_nonce returns 0 for every address in every store state, and in
particular still returns 0 after any transaction submission — nonces are
never incremented. -/
theorem claim_C9_get_nonce_always_zero (st : Src.Blockhead) (a : Src.Address) :
    st.get_nonce a = 0 ∧
    ∀ t : Src.Transaction, ((st.send_transaction t).2).get_nonce a = 0 :=
  ⟨rfl, fun _ => rfl⟩

/-- C10: the chain-metadata queries are state-independent constants:
chain_id is 1, syncing is false, and gas_price is 20_000_000_000 in every
store state. -/
theorem claim_C10_chain_metadata_constant (st : Src.Blockhead) :
    st.chain_id = 1 ∧ st.syncing = false ∧ st.gas_price = 20000000000 :=
  ⟨rfl, rfl, rfl⟩
